import Mathlib

/-!
Verification development for the wp-scriptgen repository.

The repository is a small request-triggered pipeline (Netlify functions in
JavaScript): scrape a website, ask an LLM completion API for a 60-second
explainer-video script, parse the returned free text into labeled sections,
render an HTML email and dispatch it.

This file gives a shallow embedding of the relevant functions:
* `parseScript`, `youtubeId`, `renderVideoRows`, `scrapeWebsite` (the shared
  text extractor of `generate-script.mjs` / `part_002`), `scrapeSite`
  (the `part_001` extractor), and the two request handlers
  (`mjsHandler` for `generate-script.mjs`, `nfHandler` for `part_001`).
Outbound effects (fetch of the website, the completion API call, the SMTP
submission) are modeled as oracle inputs / recorded outputs, so every
definition is a total executable function.
-/

namespace WpScriptGen

/-! ## JavaScript string primitives -/

/-- Whitespace characters recognised by JavaScript `trim` / `\s`
(restricted to the ASCII whitespace characters, which are the only ones
appearing in the texts considered here). -/
def jsWs (c : Char) : Bool :=
  c == ' ' || c == '\t' || c == '\n' || c == '\r' || c == '\x0b' || c == '\x0c'

/-- `String.prototype.trim`: drop leading and trailing whitespace. -/
def trimChars (l : List Char) : List Char :=
  ((l.dropWhile jsWs).reverse.dropWhile jsWs).reverse

/-- `trim` on strings. -/
def trimStr (s : String) : String := ⟨trimChars s.data⟩

/-- JavaScript truthiness of an optional string value
(`undefined` and the empty string are falsy). -/
def optTruthy : Option String → Bool
  | none => false
  | some s => s != ""

/-- The JavaScript idiom `v || d` for an optional string `v`. -/
def optOr (v : Option String) (d : String) : String :=
  match v with
  | none => d
  | some s => if s == "" then d else s

/-- `replace(/\s+/g, " ")`: squash every maximal whitespace run into a single
space.  The boolean argument records whether the previous character was part
of a whitespace run. -/
def squashWs : List Char → Bool → List Char
  | [], _ => []
  | c :: rest, prevWs =>
    if jsWs c then
      if prevWs then squashWs rest true else ' ' :: squashWs rest true
    else c :: squashWs rest false

/-- Exact prefix test on character lists. -/
def listStarts : List Char → List Char → Bool
  | [], _ => true
  | _ :: _, [] => false
  | p :: ps, c :: cs => (p == c) && listStarts ps cs

/-- Does `small` occur contiguously inside `l`? -/
def subOccurs (small : List Char) : List Char → Bool
  | [] => small.isEmpty
  | l@(_ :: rest) => listStarts small l || subOccurs small rest

/-- Substring test (used to state that a rendered HTML document contains a
given fragment). -/
def hasSubstr (big small : String) : Bool :=
  subOccurs small.data big.data

/-! ## Section Parser (`parseScript`, src/unnamed/part_002 lines 63–77)

```js
function parseScript(raw = "") {
  const sections = { HOOK: "", PROBLEM: "", SOLUTION: "", TRUST: "", CLOSE: "" };
  const rx = /(HOOK|PROBLEM|SOLUTION|TRUST|CLOSE)[^\n]*\n+([\s\S]*?)(?=\n(?:HOOK|PROBLEM|SOLUTION|TRUST|CLOSE)|$)/gi;
  let m;
  while ((m = rx.exec(raw))) {
    const key = m[1].toUpperCase();
    const val = (m[2] || "").trim();
    if (sections[key] !== undefined) sections[key] = val;
  }
  if (!sections.HOOK && !sections.PROBLEM && !sections.SOLUTION && !sections.TRUST && !sections.CLOSE) {
    sections.SOLUTION = raw.trim();
  }
  return sections;
}
```

The embedding implements the exact backtracking semantics of this regular
expression.  Remarks justifying the shape of `matchAt` below:
* the five alternatives of the label group start with five distinct letters,
  so at any position at most one label can match and the alternation order
  is irrelevant;
* `[^\n]*` is greedy and can never give characters back usefully (the
  following `\n+` needs a newline, which `[^\n]*` never withholds), so it
  deterministically consumes the rest of the line;
* `\n+` is greedy and never backtracks: the following lazy `[\s\S]*?` can
  always extend to the end of the input where the `$` branch of the
  lookahead succeeds, so the continuation after a maximal `\n+` always
  succeeds;
* the lazy group stops at the first position whose suffix satisfies the
  lookahead `(?=\n(?:LABEL)|$)`;
* `exec` with the `g` flag resumes scanning at the end of the previous
  match (the lookahead is zero-width). -/

/-- The five section labels, in the order of the regex alternation. -/
def sectionLabels : List String := ["HOOK", "PROBLEM", "SOLUTION", "TRUST", "CLOSE"]

/-- Case-insensitive prefix test (the `i` flag of the regex; ASCII folding). -/
def ciStarts : List Char → List Char → Bool
  | [], _ => true
  | _ :: _, [] => false
  | p :: ps, c :: cs => (p.toUpper == c.toUpper) && ciStarts ps cs

/-- Try to match the label group `(HOOK|PROBLEM|SOLUTION|TRUST|CLOSE)` at the
start of `l`; returns the canonical (upper-case, `m[1].toUpperCase()`) label
together with the rest of the input. -/
def matchLabelAt (l : List Char) : Option (String × List Char) :=
  (sectionLabels.find? (fun lab => ciStarts lab.data l)).map
    (fun lab => (lab, l.drop lab.length))

/-- The lookahead `(?=\n(?:HOOK|PROBLEM|SOLUTION|TRUST|CLOSE)|$)`. -/
def lookaheadOk : List Char → Bool
  | [] => true
  | c :: rest => c == '\n' && (matchLabelAt rest).isSome

/-- The lazy body group `([\s\S]*?)`: consume characters until the first
position where the lookahead succeeds; returns the body and the remaining
input (the lookahead is zero-width). -/
def takeBody : List Char → List Char × List Char
  | [] => ([], [])
  | l@(c :: rest) =>
    if lookaheadOk l then ([], l)
    else
      let p := takeBody rest
      (c :: p.1, p.2)

/-- One full match attempt of the section regex at the current position:
label group, `[^\n]*`, `\n+`, lazy body, lookahead.  Returns the canonical
label, the raw captured body and the input remaining after the match. -/
def matchAt (l : List Char) : Option (String × List Char × List Char) :=
  match matchLabelAt l with
  | none => none
  | some (lab, r1) =>
    let r2 := r1.dropWhile (fun c => c != '\n')
    if r2.isEmpty then none
    else
      let r3 := r2.dropWhile (fun c => c == '\n')
      let p := takeBody r3
      some (lab, p.1, p.2)

/-- Scan forward (as `exec` does after a failed attempt) for the next match. -/
def scanNext : List Char → Option (String × List Char × List Char)
  | [] => none
  | l@(_ :: rest) =>
    match matchAt l with
    | some r => some r
    | none => scanNext rest

/-- The section mapping is a JavaScript object with a fixed key set; we model
it as an association list in key-insertion order. -/
def initSections : List (String × String) :=
  [("HOOK", ""), ("PROBLEM", ""), ("SOLUTION", ""), ("TRUST", ""), ("CLOSE", "")]

/-- `if (sections[key] !== undefined) sections[key] = val;` — update the value
of an existing key; a key that is not present is never added. -/
def setSection (secs : List (String × String)) (k v : String) :
    List (String × String) :=
  secs.map (fun p => if p.1 == k then (k, v) else p)

/-- Object property lookup. -/
def lookupSec (secs : List (String × String)) (k : String) : Option String :=
  (secs.find? (fun p => p.1 == k)).map (fun p => p.2)

/-- Object property read in a boolean context (`!sections.HOOK` etc.);
absent keys read as the empty string. -/
def jsGet (secs : List (String × String)) (k : String) : String :=
  (lookupSec secs k).getD ""

/-- The `while ((m = rx.exec(raw)))` loop.  Every successful match consumes at
least five characters, so `l.length + 1` units of fuel are always enough. -/
def parseLoop : Nat → List Char → List (String × String) → List (String × String)
  | 0, _, secs => secs
  | fuel + 1, l, secs =>
    match scanNext l with
    | none => secs
    | some (lab, body, rest) => parseLoop fuel rest (setSection secs lab ⟨trimChars body⟩)

/-- `parseScript` of `src/unnamed/part_002`. -/
def parseScript (raw : String) : List (String × String) :=
  let secs := parseLoop (raw.data.length + 1) raw.data initSections
  if jsGet secs "HOOK" == "" && jsGet secs "PROBLEM" == "" && jsGet secs "SOLUTION" == ""
      && jsGet secs "TRUST" == "" && jsGet secs "CLOSE" == "" then
    setSection secs "SOLUTION" (trimStr raw)
  else secs

/-- Does one of the five labels occur (case-insensitively) anywhere in the
text? -/
def hasLabel : List Char → Bool
  | [] => false
  | l@(_ :: rest) => (matchLabelAt l).isSome || hasLabel rest

/-- Does the given label occur (case-insensitively) anywhere in the text? -/
def hasLabelSub (lab : String) : List Char → Bool
  | [] => false
  | l@(_ :: rest) => ciStarts lab.data l || hasLabelSub lab rest

/-! ## Video id extraction (`youtubeId`, src/unnamed/part_002 lines 21–26)

```js
function youtubeId(url = "") {
  const m =
    url.match(/(?:youtube\.com\/.*[?&]v=|youtu\.be\/)([A-Za-z0-9_-]+)/i) ||
    url.match(/youtube\.com\/shorts\/([A-Za-z0-9_-]+)/i);
  return m ? m[1] : "";
}
```

`match` (without `g`) finds the leftmost match.  In the first pattern the two
alternatives start with incompatible prefixes (`youtube.com/` vs `youtu.be/`),
so at a given position at most one applies.  The greedy `.*` (which cannot
cross a newline) never needs to backtrack past the *last* `[?&]v=` that is
followed by at least one id character, so the captured group belongs to that
last occurrence. -/

/-- `[A-Za-z0-9_-]`. -/
def idChar (c : Char) : Bool :=
  c.isAlpha || c.isDigit || c == '_' || c == '-'

/-- Greedy `.*[?&]v=([A-Za-z0-9_-]+)`: the capture of the last `[?&]v=`
occurrence (case-insensitive `v`) that is followed by at least one id
character and is not preceded by a newline. -/
def lastV : List Char → Option (List Char)
  | [] => none
  | c :: rest =>
    if c == '\n' then none
    else
      let here : Option (List Char) :=
        if c == '?' || c == '&' then
          match rest with
          | v :: '=' :: tl =>
            if v.toUpper == 'V' then
              let run := tl.takeWhile idChar
              if run.isEmpty then none else some run
            else none
          | _ => none
        else none
      match lastV rest with
      | some r => some r
      | none => here

/-- One attempt of the first regex at the current position. -/
def watchAt (l : List Char) : Option (List Char) :=
  if ciStarts "youtube.com/".data l then lastV (l.drop 12)
  else if ciStarts "youtu.be/".data l then
    let run := (l.drop 9).takeWhile idChar
    if run.isEmpty then none else some run
  else none

/-- Leftmost match of the first regex. -/
def watchScan : List Char → Option (List Char)
  | [] => none
  | l@(_ :: rest) =>
    match watchAt l with
    | some r => some r
    | none => watchScan rest

/-- One attempt of the `shorts` regex at the current position. -/
def shortsAt (l : List Char) : Option (List Char) :=
  if ciStarts "youtube.com/shorts/".data l then
    let run := (l.drop 19).takeWhile idChar
    if run.isEmpty then none else some run
  else none

/-- Leftmost match of the `shorts` regex. -/
def shortsScan : List Char → Option (List Char)
  | [] => none
  | l@(_ :: rest) =>
    match shortsAt l with
    | some r => some r
    | none => shortsScan rest

/-- `youtubeId` of `src/unnamed/part_002`. -/
def youtubeId (url : String) : String :=
  match watchScan url.data with
  | some run => ⟨run⟩
  | none =>
    match shortsScan url.data with
    | some run => ⟨run⟩
    | none => ""

/-! ## Email video rows (`renderVideoRows`, src/unnamed/part_002 lines 29–44) -/

/-- One entry of the `videos` array: `{ title?, url? }`. -/
structure VideoRef where
  url : Option String
  title : Option String
deriving Repr, DecidableEq

/-- `v.title?.trim() || `Reference Video ${i + 1}`` -/
def rowTitle (v : VideoRef) (i : Nat) : String :=
  optOr (v.title.map trimStr) ("Reference Video " ++ toString (i + 1))

/-- `v.url || "#"` -/
def safeUrlOf (v : VideoRef) : String := optOr v.url "#"

/-- `id ? `https://img.youtube.com/vi/${id}/hqdefault.jpg` : ""` -/
def thumbOf (v : VideoRef) : String :=
  let id := youtubeId (v.url.getD "")
  if id == "" then "" else "https://img.youtube.com/vi/" ++ id ++ "/hqdefault.jpg"

/-- Row template chunk before `href="${safeUrl}"`. -/
def vrow1 : String := "\n        <table width=\"100%\" cellpadding=\"0\" cellspacing=\"0\" role=\"presentation\" style=\"margin:0 0 16px 0;\">\n          <tr>\n            <!-- Thumbnail -->\n            <td width=\"42%\" valign=\"top\" style=\"padding:0 12px 0 0;\">\n              <a href=\""

/-- Row template chunk between the link and `src="${thumb}"`. -/
def vrow2 : String := "\" target=\"_blank\" style=\"text-decoration:none;\">\n                <img src=\""

/-- Row template chunk between the thumbnail and `${title}`. -/
def vrow3 : String := "\" alt=\"Video thumbnail\" width=\"100%\" style=\"display:block; width:100%; max-width:240px; border-radius:12px;\">\n              </a>\n            </td>\n            <!-- Title + Button -->\n            <td width=\"58%\" valign=\"middle\" style=\"padding:0 0 0 12px;\">\n              <h4 style=\"margin:0 0 10px 0; font-size:16px; line-height:1.4; color:#0f172a; font-weight:700;\">\n                "

/-- Row template chunk between the title and the second `href="${safeUrl}"`. -/
def vrow4 : String := "\n              </h4>\n              <a href=\""

/-- Row template chunk after the second link. -/
def vrow5 : String := "\" target=\"_blank\"\n                 style=\"display:inline-block; padding:10px 14px; border-radius:9999px; background:#7c3aed; color:#ffffff; font-size:14px; font-weight:600; text-decoration:none;\">\n                Watch on YouTube\n              </a>\n            </td>\n          </tr>\n        </table>\n      "

/-- The row template literal with its four interpolation slots. -/
def videoRowHtml (safeUrl thumb title : String) : String :=
  vrow1 ++ safeUrl ++ vrow2 ++ thumb ++ vrow3 ++ title ++ vrow4 ++ safeUrl ++ vrow5

/-- The row produced for entry `v` at index `i`. -/
def renderVideoRow (v : VideoRef) (i : Nat) : String :=
  videoRowHtml (safeUrlOf v) (thumbOf v) (rowTitle v i)

/-- `renderVideoRows` of `src/unnamed/part_002`. -/
def renderVideoRows (videos : List VideoRef) : String :=
  String.join (videos.mapIdx fun i v => renderVideoRow v i)

/-! ## Text Extractor (`scrapeWebsite`, shared by
`src/netlify/functions/generate-script.mjs` and `src/unnamed/part_002`)

```js
async function scrapeWebsite(url) {
  try {
    const res = await fetch(url);
    const html = await res.text();
    const $ = cheerio.load(html);
    const textParts = [];
    $("h1, h2, h3, p, meta[name='description']").each((_, el) => {
      const content = $(el).text() || $(el).attr("content");
      if (content && content.trim().length > 30) textParts.push(content.trim());
    });
    return textParts.slice(0, 30).join("\n\n");
  } catch (err) {
    return `Error scraping site: ${err.message}`;
  }
}
```

The fetch and the HTML parse are external collaborators; we model their
combined outcome as an `Except`: an error (network failure, non-text body,
…) or the parsed document, given as its element list in document order. -/

/-- The element kinds distinguished by the selector. -/
inductive Tag where
  | h1 | h2 | h3 | p | metaDescription | other
deriving Repr, DecidableEq

/-- Is the element matched by `"h1, h2, h3, p, meta[name='description']"`? -/
def selTag : Tag → Bool
  | .h1 => true
  | .h2 => true
  | .h3 => true
  | .p => true
  | .metaDescription => true
  | .other => false

/-- A parsed element: its tag, its `$(el).text()` and its `content`
attribute. -/
structure Element where
  tag : Tag
  text : String
  contentAttr : Option String
deriving Repr, DecidableEq

/-- `$(el).text() || $(el).attr("content")`. -/
def elContent (e : Element) : Option String :=
  if e.text != "" then some e.text else e.contentAttr

/-- The pushed fragments (one pass over the document, in document order). -/
def extractFragments (doc : List Element) : List String :=
  doc.filterMap fun e =>
    if selTag e.tag then
      match elContent e with
      | none => none
      | some c => if c != "" && 30 < (trimStr c).length then some (trimStr c) else none
    else none

/-- `textParts.slice(0, 30).join("\n\n")`. -/
def scrapeText (doc : List Element) : String :=
  String.intercalate "\n\n" ((extractFragments doc).take 30)

/-- `scrapeWebsite`: total — an error becomes a diagnostic string. -/
def scrapeWebsite (outcome : Except String (List Element)) : String :=
  match outcome with
  | .error msg => "Error scraping site: " ++ msg
  | .ok doc => scrapeText doc

/-! ## Text Extractor of `src/unnamed/part_001` (`scrapeSite`)

```js
async function scrapeSite(url) {
  if (!url) return { summary: "", points: [] };
  try {
    ... fetch, cheerio ...
    const title = $('meta[property="og:title"]').attr('content') || $('title').first().text();
    const desc = $('meta[name="description"]').attr('content') || $('meta[property="og:description"]').attr('content') || "";
    const h1 = $('h1').first().text();
    const paragraphs = $('p').map((i, el) => $(el).text()).get().filter(Boolean).slice(0, 6).join(' ');
    const text = [title, desc, h1, paragraphs].join(' ').replace(/\s+/g, ' ').slice(0, 2000);
    const points = [];
    const kw = $('meta[name="keywords"]').attr('content');
    if (kw) kw.split(',').slice(0,5).forEach(k => points.push(k.trim()));
    return { summary: text, points };
  } catch (e) {
    return { summary: "", points: [] };
  }
}
```
-/

/-- The page data consulted by `scrapeSite`. -/
structure NfPage where
  ogTitle : Option String
  titleText : String
  metaDesc : Option String
  ogDesc : Option String
  h1Text : String
  pTexts : List String
  keywords : Option String
deriving Repr, DecidableEq

/-- Result record `{ summary, points }`. -/
structure NfScrape where
  summary : String
  points : List String
deriving Repr, DecidableEq

/-- The `try` body of `scrapeSite` on a successfully fetched page. -/
def buildScrape (pg : NfPage) : NfScrape :=
  let title := optOr pg.ogTitle pg.titleText
  let desc := optOr pg.metaDesc (optOr pg.ogDesc "")
  let h1 := pg.h1Text
  let paragraphs := String.intercalate " " ((pg.pTexts.filter (fun s => s != "")).take 6)
  let text : String := ⟨(squashWs (String.intercalate " " [title, desc, h1, paragraphs]).data false).take 2000⟩
  let points := match pg.keywords with
    | some kw => if kw != "" then ((kw.splitOn ",").take 5).map trimStr else []
    | none => []
  ⟨text, points⟩

/-- `scrapeSite`, returning also whether a network fetch was attempted.
The fetch/parse outcome is an oracle input, consulted only when the guard
passes. -/
def scrapeSite (url : Option String) (fetched : Except String NfPage) :
    NfScrape × Bool :=
  if !(optTruthy url) then (⟨"", []⟩, false)
  else
    match fetched with
    | .error _ => (⟨"", []⟩, true)
    | .ok pg => (buildScrape pg, true)

/-! ## Request Handler of `src/netlify/functions/generate-script.mjs`

The file contains near-duplicate copies of the same handler; the complete
copy (the one whose email template references only defined variables) is
embedded here.  The first copy differs only in that its template string
interpolates an identifier (`videoCardsHTML`) that the copy never defines,
so evaluating its template throws a `ReferenceError` that the top-level
`catch` turns into an HTTP 500 — see the notes accompanying the results.

External effects are oracle inputs: the website fetch outcome is the string
`scrapeOutcome` that `scrapeWebsite` would return (a total function, see
above), and the completion call outcome is an `LlmFetch` value.  The mail
submission is recorded in the output. -/

/-- Fields destructured from the parsed request body. -/
structure MjsFields where
  business_name : Option String
  website : Option String
  linkedin_url : Option String
  email : Option String
deriving Repr, DecidableEq

/-- The parts of the completion response JSON the handlers read:
`choices?.[0]?.message?.content`, `choices?.[0]?.delta?.content` and the
top-level `error` value. -/
structure LlmData where
  messageContent : Option String
  deltaContent : Option String
  errorVal : Option String
deriving Repr, DecidableEq

/-- Outcome of the outbound completion call: the fetch itself may reject,
the body may fail to parse as JSON, or it parses; the HTTP success flag
(`response.ok`) travels with the response either way. -/
inductive LlmFetch where
  | netErr (msg : String)
  | jsonErr (ok : Bool) (msg : String)
  | parsed (ok : Bool) (data : LlmData)
deriving Repr, DecidableEq

/-- One mail submission handed to the transport. -/
structure Mail where
  recipient : String
  subject : String
  html : String
deriving Repr, DecidableEq

/-- Response bodies produced by the mjs handler. -/
inductive MjsBody where
  | noBody
  | plain (s : String)
  | errJson (msg : String)
  | success (message script scraped : String)
deriving Repr, DecidableEq

/-- A Netlify v1 handler response. -/
structure MjsResponse where
  statusCode : Nat
  headers : List (String × String)
  body : MjsBody
deriving Repr, DecidableEq

/-- Handler result plus recorded effects. -/
structure MjsOutcome where
  resp : MjsResponse
  mail : Option Mail
  scrapeCalled : Bool
  scraped : String
deriving Repr, DecidableEq

/-- Email template chunk up to `Hey ${business_name || "there"}`. -/
def mjsTpl1 : String := "\n<!DOCTYPE html>\n<html>\n  <head>\n    <meta charset=\"UTF-8\" />\n    <meta name=\"viewport\" content=\"width=device-width, initial-scale=1.0\" />\n    <title>Email Template</title>\n  </head>\n  <body style=\"margin:0; padding:0; background-color:#f3e8ff; font-family: Arial, sans-serif;\">\n    <!-- Wrapper -->\n    <table width=\"100%\" cellpadding=\"0\" cellspacing=\"0\" border=\"0\" style=\"background-color:#f3e8ff; padding: 30px 0;\">\n      <tr>\n        <td align=\"center\">\n          <!-- Main Container -->\n          <table width=\"600\" cellpadding=\"0\" cellspacing=\"0\" border=\"0\" style=\"background-color:#ffffff; border:2px solid #8b5cf6; border-radius:10px; overflow:hidden;\">\n            \n            <!-- Logo -->\n            <tr>\n              <td align=\"center\" style=\"padding:20px;\">\n                <img src=\"https://beliv8motion.com/wp-content/uploads/2024/03/Logo_Animation_Website_2-2.gif\" alt=\"Logo\" width=\"180\" style=\"display:block; margin:auto;\" />\n              </td>\n            </tr>\n           \n            <!-- Header Section -->\n            <tr>\n              <td style=\"padding: 0 30px 20px 30px; text-align:left; color:#111827;\">\n                <h2 style=\"margin:0; font-size:22px; color:#4c1d95;\">Hey "

/-- Email template chunk between the business name and `${scriptContent}`. -/
def mjsTpl2 : String := ",</h2>\n                <p style=\"font-size:15px; line-height:1.6; margin-top:10px; color:#374151;\">\n                  Here’s your <strong>amazing script</strong>  \n                  And right below it, you’ll also find some of our <strong>reference videos</strong> and the <strong>process we follow after the script phase</strong>.\n                </p>\n              </td>\n            </tr>\n\n            <!-- Divider -->\n            <tr>\n              <td>\n                <hr style=\"border:none; border-top:2px solid #8b5cf6; margin:0 30px;\" />\n              </td>\n            </tr>\n\n            <!-- Script Content -->\n            <tr>\n              <td style=\"padding:20px 30px; text-align:left; color:#111827;\">\n                <h3 style=\"margin:0 0 15px 0; font-size:20px; color:#4c1d95;\"> Your Explainer Video Script</h3>\n                <pre style=\"white-space: pre-wrap; font-family: monospace; background:#f4f4f4; padding:15px; border-radius:8px;\">\n"

/-- Email template chunk after `${scriptContent}`. -/
def mjsTpl3 : String := "\n                </pre>\n              </td>\n            </tr>\n\n            <!-- Reference Videos Section -->\n            <tr>\n              <td style=\"padding:20px 30px; text-align:left; color:#111827;\">\n                <h3 style=\"margin:0 0 15px 0; font-size:20px; color:#4c1d95;\"> Some of Our Reference Videos</h3>\n                \n                <!-- Video 1 -->\n                <table width=\"100%\" cellpadding=\"0\" cellspacing=\"0\" border=\"0\" style=\"margin-bottom:20px;\">\n                  <tr>\n                    <td width=\"40%\" valign=\"top\">\n                      <img src=\"YOUR_THUMBNAIL_URL_1\" alt=\"Video Thumbnail\" style=\"width:100%; border-radius:10px;\" />\n                    </td>\n                    <td width=\"60%\" valign=\"top\" style=\"padding-left:15px;\">\n                      <h4 style=\"margin:0; font-size:16px; color:#111827;\">No Motion Design Clients? Here’s How to Fix It!</h4>\n                      <a href=\"https://www.youtube.com/watch?v=dQw4w9WgXcQ\"\n                         style=\"display:inline-block; margin-top:8px; background:#8b5cf6; color:#fff; text-decoration:none; padding:8px 14px; border-radius:6px; font-size:14px;\">\n                        Watch on YouTube\n                      </a>\n                    </td>\n                  </tr>\n                </table>\n\n                <!-- Video 2 -->\n                <table width=\"100%\" cellpadding=\"0\" cellspacing=\"0\" border=\"0\" style=\"margin-bottom:20px;\">\n                  <tr>\n                    <td width=\"40%\" valign=\"top\">\n                      <img src=\"YOUR_THUMBNAIL_URL_2\" alt=\"Video Thumbnail\" style=\"width:100%; border-radius:10px;\" />\n                    </td>\n                    <td width=\"60%\" valign=\"top\" style=\"padding-left:15px;\">\n                      <h4 style=\"margin:0; font-size:16px; color:#111827;\">How I’d Start My Freelance Business in 2024</h4>\n                      <a href=\"https://www.youtube.com/watch?v=5qap5aO4i9A\"\n                         style=\"display:inline-block; margin-top:8px; background:#8b5cf6; color:#fff; text-decoration:none; padding:8px 14px; border-radius:6px; font-size:14px;\">\n                        Watch on YouTube\n                      </a>\n                    </td>\n                  </tr>\n                </table>\n              </td>\n            </tr>\n\n            <!-- Our Process Section -->\n            <tr>\n              <td style=\"padding:20px 30px; text-align:left; color:#111827; background:#f5f3ff; border-top:2px solid #8b5cf6;\">\n                <h3 style=\"margin:0 0 15px 0; font-size:20px; color:#4c1d95;\"> Our Process After the Script</h3>\n                <p style=\"font-size:15px; color:#374151; margin-bottom:15px;\">\n                  Once the script is ready, we follow a structured process to bring your video to life:\n                </p>\n                <div style=\"text-align:center;\">\n                  <a href=\"https://www.youtube.com/watch?v=lA1ibjcOwTY\" target=\"_blank\" style=\"display:inline-block;\">\n                    <img src=\"https://img.youtube.com/vi/lA1ibjcOwTY/0.jpg\" alt=\"Process Video\" width=\"100%\" style=\"border-radius:10px; max-width:500px;\" />\n                  </a>\n                </div>\n              </td>\n            </tr>\n\n            <!-- Closing CTA -->\n            <tr>\n              <td style=\"padding:20px 30px; text-align:left; color:#111827;\">\n                <p style=\"font-size:15px; color:#374151; line-height:1.6;\">\n                  If you’re interested in taking the <strong>video production process ahead</strong>, just reply to this email.  \n                  It usually takes us <strong>about 3 days</strong> to complete a polished video after the script phase. \n                </p>\n              </td>\n            </tr>\n\n            <!-- Footer -->\n            <tr>\n              <td style=\"padding:20px 30px; text-align:center; background-color:#f5f3ff;\">\n                <p style=\"font-size:13px; color:#6b7280; margin:0;\">\n                  You are receiving this email because you signed up for updates.  \n                  <br />\n                  <a href=\"#\" style=\"color:#8b5cf6; text-decoration:none;\">Unsubscribe</a> | <a href=\"#\" style=\"color:#8b5cf6; text-decoration:none;\">Manage Preferences</a>\n                </p>\n              </td>\n            </tr>\n\n          </table>\n        </td>\n      </tr>\n    </table>\n  </body>\n</html>\n"


/-- The `emailTemplate` literal with its two interpolations. -/
def mjsEmailTemplate (businessName : Option String) (scriptContent : String) : String :=
  mjsTpl1 ++ optOr businessName "there" ++ mjsTpl2 ++ scriptContent ++ mjsTpl3

/-- Headers of the OPTIONS (preflight) response. -/
def mjsCorsPre (allowedOrigins : Option String) : List (String × String) :=
  [("Access-Control-Allow-Origin", optOr allowedOrigins "*"),
   ("Access-Control-Allow-Methods", "POST, OPTIONS"),
   ("Access-Control-Allow-Headers", "Content-Type")]

/-- The handler of `generate-script.mjs`. -/
def mjsHandler (allowedOrigins : Option String) (method : String)
    (parsedBody : Except String MjsFields) (scrapeOutcome : String)
    (llm : LlmFetch) : MjsOutcome :=
  if method == "OPTIONS" then
    ⟨⟨200, mjsCorsPre allowedOrigins, .noBody⟩, none, false, ""⟩
  else if method != "POST" then
    ⟨⟨405, [], .plain "Method Not Allowed"⟩, none, false, ""⟩
  else
    match parsedBody with
    | .error msg => ⟨⟨500, [], .errJson msg⟩, none, false, ""⟩
    | .ok fields =>
      let scrapeCalled := optTruthy fields.website
      let scrapedContent := if scrapeCalled then scrapeOutcome else ""
      match llm with
      | .netErr msg => ⟨⟨500, [], .errJson msg⟩, none, scrapeCalled, scrapedContent⟩
      | .jsonErr _ msg => ⟨⟨500, [], .errJson msg⟩, none, scrapeCalled, scrapedContent⟩
      | .parsed _ data =>
        let scriptContent :=
          optOr data.messageContent (optOr data.deltaContent "No script generated")
        let emailHtml := mjsEmailTemplate fields.business_name scriptContent
        let mail :=
          if optTruthy fields.email then
            some (Mail.mk (fields.email.getD "") "Your Explainer Video Script" emailHtml)
          else none
        ⟨⟨200,
          [("Access-Control-Allow-Origin", optOr allowedOrigins "*"),
           ("Content-Type", "application/json")],
          .success "Script generated and sent via email" scriptContent scrapedContent⟩,
          mail, scrapeCalled, scrapedContent⟩

/-! ## Request Handler of `src/unnamed/part_001` (Netlify v2 API)

`export default async (req, context) => ...`, with `corsHeaders` attached to
every response it builds. -/

/-- Fields destructured from `await req.json()`. -/
structure NfFields where
  website : Option String
  linkedin : Option String
  about : Option String
  business_name : Option String
  email : Option String
deriving Repr, DecidableEq

/-- Response bodies produced by the part_001 handler. -/
inductive NfBody where
  | empty
  | errJson (msg : String)
  | scriptJson (script : String)
deriving Repr, DecidableEq

/-- A `Response` value: status, headers, body. -/
structure NfResponse where
  status : Nat
  headers : List (String × String)
  body : NfBody
deriving Repr, DecidableEq

/-- Handler result plus whether the fire-and-forget mail task was started
(`context.waitUntil(emailScript(...))`). -/
structure NfOutcome where
  resp : NfResponse
  mailAttempted : Bool
deriving Repr, DecidableEq

/-- `corsHeaders(origin)` of part_001; `allowedOrigins` is the already
split/trimmed/filtered `ALLOWED_ORIGINS` list. -/
def nfCors (allowedOrigins : List String) (origin : String) : List (String × String) :=
  let allowed :=
    if allowedOrigins.contains "*" then "*"
    else if allowedOrigins.contains origin then origin
    else allowedOrigins.headD ""
  [("Access-Control-Allow-Origin", if allowed == "" then "*" else allowed),
   ("Access-Control-Allow-Headers", "Content-Type"),
   ("Access-Control-Allow-Methods", "POST, OPTIONS")]

/-- The JSON content-type header attached beside the CORS headers. -/
def ctJson : String × String := ("Content-Type", "application/json")

/-- The handler of `src/unnamed/part_001`.  The scrape result is an oracle
input (it only feeds the prompt, which the response does not depend on). -/
def nfHandler (apiKey : Option String) (allowedOrigins : List String)
    (origin : String) (method : String) (parsedBody : Except String NfFields)
    (_scrape : NfScrape) (llm : LlmFetch) : NfOutcome :=
  let cors := nfCors allowedOrigins origin
  if method == "OPTIONS" then ⟨⟨204, cors, .empty⟩, false⟩
  else if method != "POST" then ⟨⟨405, cors ++ [ctJson], .errJson "Use POST"⟩, false⟩
  else
    match parsedBody with
    | .error msg => ⟨⟨500, cors ++ [ctJson], .errJson msg⟩, false⟩
    | .ok fields =>
      if !(optTruthy apiKey) then
        ⟨⟨500, cors ++ [ctJson], .errJson "Missing OPENROUTER_API_KEY"⟩, false⟩
      else if !(optTruthy fields.website) && !(optTruthy fields.about)
          && !(optTruthy fields.linkedin) then
        ⟨⟨400, cors ++ [ctJson], .errJson "Provide at least one of: website, linkedin, about."⟩, false⟩
      else
        match llm with
        | .netErr msg => ⟨⟨500, cors ++ [ctJson], .errJson msg⟩, false⟩
        | .jsonErr _ msg => ⟨⟨500, cors ++ [ctJson], .errJson msg⟩, false⟩
        | .parsed ok data =>
          if !ok then
            ⟨⟨500, cors ++ [ctJson], .errJson (optOr data.errorVal "LLM error")⟩, false⟩
          else
            let script := (data.messageContent).getD ""
            ⟨⟨200, cors ++ [ctJson], .scriptJson script⟩,
              optTruthy fields.email && script != ""⟩

/-! ## Lemma layer -/

/-- `setSection` never changes the key list. -/
theorem setSection_keys (secs : List (String × String)) (k v : String) :
    (setSection secs k v).map Prod.fst = secs.map Prod.fst := by
  unfold setSection
  rw [List.map_map]
  apply List.map_congr_left
  intro p _
  by_cases h : p.1 == k
  · simp only [Function.comp_apply, h, if_true]
    exact (eq_of_beq h).symm
  · simp [Function.comp, h]

/-- The exec loop never changes the key list. -/
theorem parseLoop_keys (fuel : Nat) :
    ∀ (l : List Char) (secs : List (String × String)),
      (parseLoop fuel l secs).map Prod.fst = secs.map Prod.fst := by
  induction fuel with
  | zero => intro l secs; rfl
  | succ n ih =>
    intro l secs
    unfold parseLoop
    cases h : scanNext l with
    | none => rfl
    | some r =>
      obtain ⟨lab, body, rest⟩ := r
      rw [ih rest _, setSection_keys]

/-- A failed label match makes the whole match attempt fail. -/
theorem matchAt_none (l : List Char) (h : matchLabelAt l = none) :
    matchAt l = none := by
  unfold matchAt
  rw [h]

/-- If no label occurs anywhere, the scan finds nothing. -/
theorem scanNext_none (l : List Char) (h : hasLabel l = false) :
    scanNext l = none := by
  induction l with
  | nil => rfl
  | cons c rest ih =>
    unfold hasLabel at h
    simp only [Bool.or_eq_false_iff] at h
    unfold scanNext
    rw [matchAt_none _ (by
      cases hm : matchLabelAt (c :: rest) with
      | none => rfl
      | some v => rw [hm] at h; simp at h)]
    exact ih h.2

/-! ## Claims about the Section Parser -/

/-- C5: for every input string, the Section Parser returns a mapping with
exactly the five keys HOOK, PROBLEM, SOLUTION, TRUST, CLOSE (in that order),
each value a possibly empty string. -/
theorem parser_exactly_five_keys (raw : String) :
    (parseScript raw).map Prod.fst = sectionLabels := by
  unfold parseScript
  dsimp only
  have hk := parseLoop_keys (raw.data.length + 1) raw.data initSections
  split
  · rw [setSection_keys, hk]; rfl
  · rw [hk]; rfl

/-- C3 (amended): if none of the five labels occurs anywhere in the text,
the parser leaves HOOK, PROBLEM, TRUST and CLOSE empty and puts the whole
raw text, trimmed of leading and trailing whitespace, into SOLUTION. -/
theorem parser_fallback_solution (raw : String) (h : hasLabel raw.data = false) :
    parseScript raw =
      [("HOOK", ""), ("PROBLEM", ""), ("SOLUTION", trimStr raw),
       ("TRUST", ""), ("CLOSE", "")] := by
  unfold parseScript
  dsimp only
  have hs : parseLoop (raw.data.length + 1) raw.data initSections = initSections := by
    unfold parseLoop
    rw [scanNext_none raw.data h]
  rw [hs]
  rfl

/-- C3 witness: a concrete label-free text lands entirely in SOLUTION. -/
theorem parser_fallback_solution_witness :
    hasLabel "a plain script with no section headings".data = false ∧
    parseScript "a plain script with no section headings" =
      [("HOOK", ""), ("PROBLEM", ""),
       ("SOLUTION", trimStr "a plain script with no section headings"),
       ("TRUST", ""), ("CLOSE", "")] :=
  ⟨by decide, parser_fallback_solution _ (by decide)⟩

/-- C3 counterexample: the claim as stated ("the entire raw text is placed
into the Solution section") fails — leading/trailing whitespace is trimmed:
for the label-free input `" x "` the Solution section holds `"x"`, not
`" x "`. -/
theorem parser_fallback_trims_cx :
    hasLabel " x ".data = false ∧
    jsGet (parseScript " x ") "SOLUTION" = "x" ∧
    jsGet (parseScript " x ") "SOLUTION" ≠ " x " := by decide

/-! ## Substring lemmas -/

/-- A list is an exact prefix of itself followed by anything. -/
theorem listStarts_self_append (s r : List Char) : listStarts s (s ++ r) = true := by
  induction s with
  | nil => rfl
  | cons c cs ih => simp [listStarts, ih]

/-- A contiguous occurrence at a known position is found. -/
theorem subOccurs_append_mid (a s b : List Char) :
    subOccurs s (a ++ (s ++ b)) = true := by
  induction a with
  | nil =>
    simp only [List.nil_append]
    cases hs : s with
    | nil =>
      cases b with
      | nil => rfl
      | cons x xs => simp [subOccurs, listStarts]
    | cons c cs =>
      have h2 := listStarts_self_append (c :: cs) b
      unfold subOccurs
      simp only [List.cons_append] at h2 ⊢
      rw [h2]
      simp
  | cons x xs ih =>
    simp only [List.cons_append]
    unfold subOccurs
    rw [ih]
    simp

/-- `hasSubstr` holds whenever the small string occurs by construction. -/
theorem hasSubstr_eq (big a s b : String)
    (h : big.data = a.data ++ (s.data ++ b.data)) : hasSubstr big s = true := by
  unfold hasSubstr
  rw [h]
  exact subOccurs_append_mid a.data s.data b.data

/-- A string occurs in any enclosing concatenation. -/
theorem hasSubstr_mid (a s b : String) : hasSubstr (a ++ s ++ b) s = true := by
  unfold hasSubstr
  rw [String.data_append, String.data_append, List.append_assoc]
  exact subOccurs_append_mid a.data s.data b.data

/-! ## Claims about the Text Extractors -/

/-- C6 (amended): the extractors are total and never propagate an
exception.  The `scrapeWebsite` extractor (of `generate-script.mjs` and
`part_002`) returns the diagnostic string `"Error scraping site: <msg>"` on
any fetch/parse error; the `scrapeSite` extractor of `part_001` instead
returns an empty summary on error.  In all variants the result is a plain
(possibly empty) string value. -/
theorem extractor_total_error_handling :
    (∀ msg, scrapeWebsite (Except.error msg) = "Error scraping site: " ++ msg)
    ∧ (∀ doc, scrapeWebsite (Except.ok doc) = scrapeText doc)
    ∧ (∀ url msg, optTruthy url = true →
        scrapeSite url (Except.error msg) = (⟨"", []⟩, true)) := by
  refine ⟨fun msg => rfl, fun doc => rfl, fun url msg h => ?_⟩
  unfold scrapeSite
  rw [h]
  rfl

/-- C6 witness: the error behaviours at concrete inputs. -/
theorem extractor_total_error_handling_witness :
    scrapeWebsite (Except.error "boom") = "Error scraping site: boom"
    ∧ optTruthy (some "https://acme.example") = true
    ∧ scrapeSite (some "https://acme.example") (Except.error "boom") = (⟨"", []⟩, true) :=
  ⟨extractor_total_error_handling.1 "boom", by decide,
    extractor_total_error_handling.2.2 (some "https://acme.example") "boom" (by decide)⟩

/-- C6 counterexample: the claim says the Text Extractor returns a short
diagnostic string on any fetch error, but the `part_001` extractor
(`scrapeSite`, one of the claim's cited sources) returns an empty summary,
not a diagnostic string. -/
theorem scrapeSite_error_not_diagnostic_cx :
    (scrapeSite (some "https://acme.example")
        (Except.error "connect ECONNREFUSED")).1.summary = ""
    ∧ (scrapeSite (some "https://acme.example")
        (Except.error "connect ECONNREFUSED")).1.summary
        ≠ "Error scraping site: connect ECONNREFUSED" := by decide

/-- C7: when the request has no website field, the mjs handler never invokes
the extractor (its scraped content stays empty, whatever the other inputs),
and the `part_001` extractor returns an empty result without attempting a
fetch. -/
theorem website_absent_no_fetch (ao : Option String) (bn lu em : Option String)
    (scrapeOutcome : String) (llm : LlmFetch) :
    ((mjsHandler ao "POST" (.ok ⟨bn, none, lu, em⟩) scrapeOutcome llm).scrapeCalled = false
     ∧ (mjsHandler ao "POST" (.ok ⟨bn, none, lu, em⟩) scrapeOutcome llm).scraped = "")
    ∧ ∀ fetched, scrapeSite none fetched = (⟨"", []⟩, false) := by
  refine ⟨?_, fun fetched => rfl⟩
  cases llm <;> simp [mjsHandler, optTruthy]

/-- For the bound statements: the selector fragments before the length
filter. -/
def selectedTrimmed (e : Element) : Option String :=
  if selTag e.tag then (elContent e).map trimStr else none

/-- Filtering after a `filterMap` fuses into the mapped function. -/
theorem filterMap_optFilter {a b : Type} (g : a → Option b) (p : b → Bool) (l : List a) :
    (l.filterMap g).filter p = l.filterMap (fun x => match g x with
      | none => none
      | some y => if p y then some y else none) := by
  induction l with
  | nil => rfl
  | cons x t ih =>
    rw [List.filterMap_cons, List.filterMap_cons]
    cases hg : g x with
    | none => simpa using ih
    | some y =>
      by_cases hp : p y
      · simp [hp, List.filter_cons, ih]
      · simp [hp, List.filter_cons, ih]

/-- The single collection pass equals filtering the trimmed selected
contents by the length threshold. -/
theorem extractFragments_eq_filter (doc : List Element) :
    extractFragments doc
      = (doc.filterMap selectedTrimmed).filter (fun s => 30 < s.length) := by
  rw [filterMap_optFilter]
  unfold extractFragments
  apply List.filterMap_congr
  intro e _
  unfold selectedTrimmed
  by_cases hsel : selTag e.tag
  · simp only [hsel, if_true]
    cases hc : elContent e with
    | none => rfl
    | some cval =>
      simp only [Option.map_some]
      by_cases hz : cval == ""
      · have hc0 : cval = "" := eq_of_beq hz
        subst hc0
        rfl
      · have hz2 : ¬cval = "" := by
          intro h0
          exact hz (by simp [h0])
        by_cases hlen : 30 < (trimStr cval).length
        · simp [hz2, hlen]
        · simp [hz2, hlen]
  · simp only [Bool.not_eq_true] at hsel
    simp [hsel]

/-- C8: the extractor keeps only trimmed fragments longer than 30
characters drawn (in document order) from the selected elements, emits at
most 30 of them, and joins them with blank lines. -/
theorem extractor_bounds (doc : List Element) :
    scrapeText doc = String.intercalate "\n\n" ((extractFragments doc).take 30)
    ∧ ((extractFragments doc).take 30).length ≤ 30
    ∧ (((extractFragments doc).take 30).all (fun f => 30 < f.length)) = true
    ∧ ((extractFragments doc).take 30).Sublist (doc.filterMap selectedTrimmed) := by
  refine ⟨rfl, List.length_take_le 30 _, ?_, ?_⟩
  · rw [List.all_eq_true]
    intro f hf
    have hf2 : f ∈ extractFragments doc := List.mem_of_mem_take hf
    rw [extractFragments_eq_filter] at hf2
    have := List.of_mem_filter hf2
    simpa using this
  · rw [extractFragments_eq_filter]
    exact ((List.take_sublist _ _).trans (List.filter_sublist _))

/-! ## Claims about the Request Handlers -/

/-- Every header list built from `nfCors` exposes the allow-origin header. -/
theorem nfCors_lookup (allowedOrigins : List String) (origin : String)
    (extra : List (String × String)) :
    (lookupSec (nfCors allowedOrigins origin ++ extra)
      "Access-Control-Allow-Origin").isSome = true := by
  unfold nfCors lookupSec
  simp [List.find?]

/-- C2 (amended): every response the `part_001` handler produces — preflight,
405, 400, 500 and 200 alike — carries the CORS allow-origin header.  (The
mjs handler instead omits all headers on its 405 and catch-all 500
responses; see the counterexample.) -/
theorem nf_all_responses_have_cors (apiKey : Option String)
    (allowedOrigins : List String) (origin method : String)
    (parsedBody : Except String NfFields) (scrape : NfScrape) (llm : LlmFetch) :
    (lookupSec (nfHandler apiKey allowedOrigins origin method parsedBody scrape llm).resp.headers
      "Access-Control-Allow-Origin").isSome = true := by
  have hnil := nfCors_lookup allowedOrigins origin []
  rw [List.append_nil] at hnil
  have hct := nfCors_lookup allowedOrigins origin [ctJson]
  unfold nfHandler
  dsimp only
  split
  · exact hnil
  split
  · exact hct
  cases parsedBody with
  | error msg => exact hct
  | ok fields =>
    dsimp only
    split
    · exact hct
    split
    · exact hct
    cases llm with
    | netErr msg => exact hct
    | jsonErr ok msg => exact hct
    | parsed ok data =>
      dsimp only
      split
      · exact hct
      · exact hct

/-- C2 counterexample: a GET request to the mjs handler is answered with
HTTP 405 and an empty header list — no CORS allow-origin header. -/
theorem mjs_405_no_cors_cx :
    (mjsHandler (some "*") "GET" (Except.ok ⟨none, none, none, none⟩) ""
        (.parsed true ⟨none, none, none⟩)).resp.statusCode = 405
    ∧ lookupSec (mjsHandler (some "*") "GET" (Except.ok ⟨none, none, none, none⟩) ""
        (.parsed true ⟨none, none, none⟩)).resp.headers
        "Access-Control-Allow-Origin" = none := by decide

/-- C1: evaluating the mjs handler at the failing input — the completion API
answers with a non-success HTTP status (`ok = false`) and a JSON error body
with no choices, the request carries a recipient email — shows the handler
answering HTTP 200 and dispatching mail, contradicting the specified
HTTP 500 / no-mail behaviour (`part_001`, which checks `llmRes.ok`,
implements the specified behaviour). -/
theorem mjs_ignores_llm_http_status :
    (mjsHandler (some "*") "POST"
        (Except.ok ⟨some "Acme", none, none, some "lead@example.com"⟩) ""
        (.parsed false ⟨none, none, some "Internal Server Error"⟩)).resp.statusCode = 200
    ∧ (mjsHandler (some "*") "POST"
        (Except.ok ⟨some "Acme", none, none, some "lead@example.com"⟩) ""
        (.parsed false ⟨none, none, some "Internal Server Error"⟩)).mail.isSome = true := by
  constructor
  · rfl
  · rfl

/-- When an optional value is falsy, `v || d` yields `d`. -/
theorem optOr_falsy (v : Option String) (d : String) (h : optTruthy v = false) :
    optOr v d = d := by
  cases v with
  | none => rfl
  | some s =>
    unfold optTruthy at h
    simp only [bne_eq_false_iff_eq] at h
    simp [optOr, h]

/-- C10: whenever the completion response parses as JSON but offers neither a
message content nor a delta content, the mjs handler answers HTTP 200 with
the sentinel script "No script generated", and when a recipient email is
present the dispatched HTML email embeds the same sentinel. -/
theorem mjs_sentinel_on_empty_choices (ao : Option String) (fields : MjsFields)
    (scrapeOutcome : String) (ok : Bool) (data : LlmData)
    (hm : optTruthy data.messageContent = false)
    (hd : optTruthy data.deltaContent = false) :
    (mjsHandler ao "POST" (Except.ok fields) scrapeOutcome (.parsed ok data)).resp.statusCode = 200
    ∧ (mjsHandler ao "POST" (Except.ok fields) scrapeOutcome (.parsed ok data)).resp.body
        = .success "Script generated and sent via email" "No script generated"
            (if optTruthy fields.website then scrapeOutcome else "")
    ∧ (optTruthy fields.email = true →
        ∃ m, (mjsHandler ao "POST" (Except.ok fields) scrapeOutcome (.parsed ok data)).mail = some m
          ∧ hasSubstr m.html "No script generated" = true) := by
  have hscript :
      optOr data.messageContent (optOr data.deltaContent "No script generated")
        = "No script generated" := by
    rw [optOr_falsy _ _ hm, optOr_falsy _ _ hd]
  refine ⟨rfl, ?_, ?_⟩
  · show MjsBody.success "Script generated and sent via email"
        (optOr data.messageContent (optOr data.deltaContent "No script generated"))
        (if optTruthy fields.website = true then scrapeOutcome else "") = _
    rw [hscript]
  · intro hemail
    refine ⟨⟨fields.email.getD "", "Your Explainer Video Script",
        mjsEmailTemplate fields.business_name
          (optOr data.messageContent (optOr data.deltaContent "No script generated"))⟩,
      ?_, ?_⟩
    · show (if optTruthy fields.email = true then
          some (Mail.mk (fields.email.getD "") "Your Explainer Video Script"
            (mjsEmailTemplate fields.business_name
              (optOr data.messageContent (optOr data.deltaContent "No script generated"))))
        else none) = _
      rw [if_pos hemail]
    · dsimp only
      rw [hscript]
      unfold mjsEmailTemplate
      apply hasSubstr_eq _ (mjsTpl1 ++ optOr fields.business_name "there" ++ mjsTpl2)
        "No script generated" mjsTpl3
      simp [String.data_append, List.append_assoc]

/-- C10 witness: the sentinel pipeline at a concrete request. -/
theorem mjs_sentinel_on_empty_choices_witness :
    (mjsHandler (some "*") "POST"
        (Except.ok ⟨some "Acme", none, none, some "lead@example.com"⟩) ""
        (.parsed true ⟨none, none, none⟩)).resp.statusCode = 200
    ∧ (mjsHandler (some "*") "POST"
        (Except.ok ⟨some "Acme", none, none, some "lead@example.com"⟩) ""
        (.parsed true ⟨none, none, none⟩)).resp.body
        = .success "Script generated and sent via email" "No script generated" ""
    ∧ (optTruthy (some "lead@example.com" : Option String) = true →
        ∃ m, (mjsHandler (some "*") "POST"
            (Except.ok ⟨some "Acme", none, none, some "lead@example.com"⟩) ""
            (.parsed true ⟨none, none, none⟩)).mail = some m
          ∧ hasSubstr m.html "No script generated" = true) := by
  have h := mjs_sentinel_on_empty_choices (some "*")
    ⟨some "Acme", none, none, some "lead@example.com"⟩ "" true
    ⟨none, none, none⟩ (by decide) (by decide)
  exact ⟨h.1, by simpa using h.2.1, fun _ => h.2.2 (by decide)⟩

/-! ## Claim about the Email Renderer (video rows) -/

/-- C9: the video id is derived by pattern matching against the three known
URL shapes (watch URLs, `youtu.be` short URLs, `shorts` URLs); when no id
can be derived the row is rendered with an empty thumbnail URL while still
containing the entry title and its link. -/
theorem video_rows_thumbnail_policy :
    youtubeId "https://www.youtube.com/watch?v=dQw4w9WgXcQ" = "dQw4w9WgXcQ"
    ∧ youtubeId "https://youtu.be/M4UJw4V0iN8" = "M4UJw4V0iN8"
    ∧ youtubeId "https://www.youtube.com/shorts/XYZ_-789" = "XYZ_-789"
    ∧ ∀ (v : VideoRef) (i : Nat), youtubeId (v.url.getD "") = "" →
        renderVideoRow v i = videoRowHtml (safeUrlOf v) "" (rowTitle v i)
        ∧ hasSubstr (renderVideoRow v i) (rowTitle v i) = true
        ∧ hasSubstr (renderVideoRow v i) (safeUrlOf v) = true := by
  refine ⟨by decide, by decide, by decide, fun v i h => ?_⟩
  have hthumb : thumbOf v = "" := by
    unfold thumbOf
    rw [h]
    rfl
  have hrow : renderVideoRow v i = videoRowHtml (safeUrlOf v) "" (rowTitle v i) := by
    unfold renderVideoRow
    rw [hthumb]
  refine ⟨hrow, ?_, ?_⟩
  · rw [hrow]
    unfold videoRowHtml
    simpa only [String.append_assoc] using
      hasSubstr_mid (vrow1 ++ safeUrlOf v ++ vrow2 ++ "" ++ vrow3) (rowTitle v i)
        (vrow4 ++ safeUrlOf v ++ vrow5)
  · rw [hrow]
    unfold videoRowHtml
    simpa only [String.append_assoc] using
      hasSubstr_mid vrow1 (safeUrlOf v)
        (vrow2 ++ "" ++ vrow3 ++ rowTitle v i ++ vrow4 ++ safeUrlOf v ++ vrow5)

/-- C9 witness: an entry with no URL yields no id; its row still shows the
default title and the placeholder link. -/
theorem video_rows_thumbnail_policy_witness :
    youtubeId ((none : Option String).getD "") = ""
    ∧ (renderVideoRow ⟨none, none⟩ 0 = videoRowHtml (safeUrlOf ⟨none, none⟩) "" (rowTitle ⟨none, none⟩ 0)
       ∧ hasSubstr (renderVideoRow ⟨none, none⟩ 0) (rowTitle ⟨none, none⟩ 0) = true
       ∧ hasSubstr (renderVideoRow ⟨none, none⟩ 0) (safeUrlOf ⟨none, none⟩) = true) :=
  ⟨by decide, video_rows_thumbnail_policy.2.2.2 ⟨none, none⟩ 0 (by decide)⟩

/-! ## C4: well-formed scripts and the Section Parser -/

/-- A well-formed segment of a completion text: a canonical label starting
its own line, the remainder of the label line, and a single-line body on the
following line. -/
structure Seg where
  label : String
  tailLine : String
  body : String
deriving Repr, DecidableEq

/-- The characters of one segment: `LABEL<tailLine>\n<body>`. -/
def segChars (s : Seg) : List Char :=
  s.label.data ++ s.tailLine.data ++ '\n' :: s.body.data

/-- Segments after the first one, each preceded by the separating newline. -/
def renderTail : List Seg → List Char
  | [] => []
  | s :: rest => '\n' :: (segChars s ++ renderTail rest)

/-- A whole well-formed script: newline-separated segments. -/
def renderSegs : List Seg → List Char
  | [] => []
  | s :: rest => segChars s ++ renderTail rest

/-- Well-formedness of one segment: canonical label, no newline in the rest
of the label line, a single-line body that is non-empty after trimming. -/
def goodSeg (s : Seg) : Bool :=
  sectionLabels.contains s.label
    && s.tailLine.data.all (fun c => c != '\n')
    && s.body.data.all (fun c => c != '\n')
    && (trimStr s.body != "")

/-- The sections produced by the exec loop on a well-formed script. -/
def applySegs (segs : List Seg) (secs : List (String × String)) :
    List (String × String) :=
  segs.foldl (fun acc s => setSection acc s.label (trimStr s.body)) secs

/-- The label group matches a canonical label placed at the position. -/
theorem matchLabelAt_label (lab : String) (h : lab ∈ sectionLabels) (r : List Char) :
    matchLabelAt (lab.data ++ r) = some (lab, r) := by
  simp only [sectionLabels, List.mem_cons, List.not_mem_nil, or_false] at h
  rcases h with rfl | rfl | rfl | rfl | rfl <;> rfl

/-- No label starts with a newline. -/
theorem matchLabelAt_newline (r : List Char) : matchLabelAt ('\n' :: r) = none := rfl

/-- A segment decomposes as label, label-line rest, newline, body. -/
theorem segChars_decomp (s : Seg) (rem : List Char) :
    segChars s ++ rem
      = s.label.data ++ (s.tailLine.data ++ ('\n' :: (s.body.data ++ rem))) := by
  simp [segChars, List.append_assoc]

/-- `dropWhile` walks through a block that wholly satisfies the predicate. -/
theorem dropWhile_all_append (p : Char → Bool) (xs ys : List Char)
    (h : xs.all p = true) : (xs ++ ys).dropWhile p = ys.dropWhile p := by
  induction xs with
  | nil => rfl
  | cons c cs ih =>
    simp only [List.all_cons, Bool.and_eq_true] at h
    simp [List.dropWhile, h.1, ih h.2]

/-- The lazy body group consumes exactly a newline-free block when the
lookahead holds right after it. -/
theorem takeBody_append (body rem : List Char)
    (hb : body.all (fun c => c != '\n') = true)
    (hr : lookaheadOk rem = true) :
    takeBody (body ++ rem) = (body, rem) := by
  induction body with
  | nil =>
    simp only [List.nil_append]
    cases rem with
    | nil => rfl
    | cons c rest =>
      unfold takeBody
      rw [if_pos hr]
  | cons c cs ih =>
    simp only [List.all_cons, Bool.and_eq_true] at hb
    have hc : (c == '\n') = false := by
      cases hcc : c == '\n'
      · rfl
      · exact absurd hcc (by simpa using hb.1)
    have hla : lookaheadOk (c :: (cs ++ rem)) = false := by
      simp [lookaheadOk, hc]
    rw [List.cons_append]
    unfold takeBody
    rw [if_neg (by rw [hla]; exact Bool.false_ne_true)]
    rw [ih hb.2]

/-- One full regex match at the start of a well-formed segment captures its
label and body and stops exactly at the segment boundary. -/
theorem matchAt_segment (s : Seg) (rem : List Char)
    (hmem : s.label ∈ sectionLabels)
    (htail : s.tailLine.data.all (fun c => c != '\n') = true)
    (hbody : s.body.data.all (fun c => c != '\n') = true)
    (hbne : s.body.data ≠ [])
    (hla : lookaheadOk rem = true) :
    matchAt (segChars s ++ rem) = some (s.label, s.body.data, rem) := by
  rw [segChars_decomp]
  unfold matchAt
  rw [matchLabelAt_label _ hmem]
  dsimp only
  have hd1 : (s.tailLine.data ++ ('\n' :: (s.body.data ++ rem))).dropWhile
      (fun c => c != '\n') = '\n' :: (s.body.data ++ rem) := by
    rw [dropWhile_all_append _ _ _ htail]
    rfl
  rw [hd1]
  have hd2 : ('\n' :: (s.body.data ++ rem)).dropWhile (fun c => c == '\n')
      = s.body.data ++ rem := by
    cases hbd : s.body.data with
    | nil => exact absurd hbd hbne
    | cons b bs =>
      have hbnl : (b == '\n') = false := by
        rw [hbd] at hbody
        simp only [List.all_cons, Bool.and_eq_true] at hbody
        cases hcc : b == '\n'
        · rfl
        · exact absurd hcc (by simpa using hbody.1)
      simp [List.dropWhile, hbnl]
  rw [List.isEmpty_cons, hd2, takeBody_append _ _ hbody hla]
  rfl

/-- A successful match at the scan position is what the scan returns. -/
theorem scanNext_of_matchAt {l : List Char} {r : String × List Char × List Char}
    (hne : l ≠ []) (h : matchAt l = some r) : scanNext l = some r := by
  cases l with
  | nil => exact absurd rfl hne
  | cons c rest =>
    unfold scanNext
    rw [h]

/-- A segment is never the empty character list. -/
theorem segChars_ne_nil (s : Seg) : segChars s ++ renderTail [] ≠ [] := by
  simp [segChars, renderTail]

/-- Unpack `goodSeg`. -/
theorem goodSeg_parts {s : Seg} (h : goodSeg s = true) :
    s.label ∈ sectionLabels
    ∧ s.tailLine.data.all (fun c => c != '\n') = true
    ∧ s.body.data.all (fun c => c != '\n') = true
    ∧ s.body.data ≠ []
    ∧ trimStr s.body ≠ "" := by
  unfold goodSeg at h
  simp only [Bool.and_eq_true] at h
  obtain ⟨⟨⟨hmem, htail⟩, hbody⟩, htrim⟩ := h
  have htrim2 : trimStr s.body ≠ "" := by simpa using htrim
  refine ⟨by simpa using hmem, htail, hbody, ?_, htrim2⟩
  intro h0
  apply htrim2
  unfold trimStr
  rw [h0]
  rfl

/-- The lookahead accepts the boundary before any further well-formed
segment (and the end of the input). -/
theorem lookahead_renderTail (segs : List Seg)
    (hg : ∀ s ∈ segs, goodSeg s = true) :
    lookaheadOk (renderTail segs) = true := by
  cases segs with
  | nil => rfl
  | cons s rest =>
    obtain ⟨hmem, -, -, -, -⟩ := goodSeg_parts (hg s (List.mem_cons_self s rest))
    have hm : (matchLabelAt (segChars s ++ renderTail rest)).isSome = true := by
      rw [segChars_decomp, matchLabelAt_label _ hmem]
      rfl
    simp [renderTail, lookaheadOk, hm]

/-- The exec loop consumes a well-formed script segment by segment,
recording each trimmed body under its label. -/
theorem parseLoop_segments (segs : List Seg)
    (hg : ∀ s ∈ segs, goodSeg s = true) :
    ∀ (secs : List (String × String)) (fuel : Nat), segs.length ≤ fuel →
      parseLoop fuel (renderTail segs) secs = applySegs segs secs
      ∧ parseLoop fuel (renderSegs segs) secs = applySegs segs secs := by
  induction segs with
  | nil =>
    intro secs fuel _
    constructor <;> (cases fuel <;> rfl)
  | cons s rest ih =>
    intro secs fuel hfuel
    cases fuel with
    | zero => simp at hfuel
    | succ f =>
      have hrest : ∀ t ∈ rest, goodSeg t = true :=
        fun t ht => hg t (List.mem_cons_of_mem s ht)
      obtain ⟨hmem, htail, hbody, hbne, -⟩ :=
        goodSeg_parts (hg s (List.mem_cons_self s rest))
      have hla := lookahead_renderTail rest hrest
      have hmatch := matchAt_segment s (renderTail rest) hmem htail hbody hbne hla
      have hne : segChars s ++ renderTail rest ≠ [] := by simp [segChars]
      have hscan := scanNext_of_matchAt hne hmatch
      have hstep : ∀ l, scanNext l = some (s.label, s.body.data, renderTail rest) →
          parseLoop (f + 1) l secs
            = parseLoop f (renderTail rest) (setSection secs s.label (trimStr s.body)) := by
        intro l hs
        show (match scanNext l with
          | none => secs
          | some (lab, body, rest2) =>
            parseLoop f rest2 (setSection secs lab ⟨trimChars body⟩)) = _
        rw [hs]
        rfl
      have hfuel2 : rest.length ≤ f := by
        simp only [List.length_cons] at hfuel
        omega
      have ihr := (ih hrest (setSection secs s.label (trimStr s.body)) f hfuel2).1
      constructor
      · show parseLoop (f + 1) ('\n' :: (segChars s ++ renderTail rest)) secs = _
        have hscan2 : scanNext ('\n' :: (segChars s ++ renderTail rest))
            = some (s.label, s.body.data, renderTail rest) := by
          unfold scanNext
          rw [matchAt_none _ (matchLabelAt_newline _)]
          exact hscan
        rw [hstep _ hscan2, ihr]
        rfl
      · show parseLoop (f + 1) (segChars s ++ renderTail rest) secs = _
        rw [hstep _ hscan, ihr]
        rfl

/-- Lookup on a cons cell. -/
theorem lookupSec_cons (q : String × String) (rest : List (String × String)) (k : String) :
    lookupSec (q :: rest) k = if (q.1 == k) = true then some q.2 else lookupSec rest k := by
  by_cases h : (q.1 == k) = true
  · simp [lookupSec, List.find?, h]
  · simp [lookupSec, List.find?, h]

/-- Updating a different key does not change a lookup. -/
theorem lookupSec_setSection_ne (secs : List (String × String)) (k k2 v : String)
    (h : k ≠ k2) : lookupSec (setSection secs k2 v) k = lookupSec secs k := by
  induction secs with
  | nil => rfl
  | cons p rest ih =>
    unfold setSection at ih ⊢
    simp only [List.map_cons]
    by_cases hp : (p.1 == k2) = true
    · have hpk : p.1 = k2 := eq_of_beq hp
      have h2 : (k2 == k) = false := beq_eq_false_iff_ne.mpr (fun e => h e.symm)
      have c1 : ¬(((k2, v).1 == k) = true) := by
        dsimp only
        rw [h2]
        exact Bool.false_ne_true
      have c2 : ¬((p.1 == k) = true) := by
        rw [hpk, h2]
        exact Bool.false_ne_true
      rw [if_pos hp, lookupSec_cons, lookupSec_cons, if_neg c1, if_neg c2]
      exact ih
    · rw [if_neg hp, lookupSec_cons, lookupSec_cons]
      by_cases hk : (p.1 == k) = true
      · rw [if_pos hk, if_pos hk]
      · rw [if_neg hk, if_neg hk]
        exact ih

/-- Updating a present key makes its lookup the new value. -/
theorem lookupSec_setSection_eq (secs : List (String × String)) (k v : String)
    (h : k ∈ secs.map Prod.fst) : lookupSec (setSection secs k v) k = some v := by
  induction secs with
  | nil => simp at h
  | cons p rest ih =>
    unfold setSection at ih ⊢
    by_cases hp : (p.1 == k) = true
    · rw [List.map_cons, if_pos hp, lookupSec_cons]
      simp
    · rw [List.map_cons, if_neg hp, lookupSec_cons, if_neg hp]
      apply ih
      simp only [List.map_cons, List.mem_cons] at h
      rcases h with rfl | h2
      · simp at hp
      · exact h2

/-- Labels not occurring in the segment list leave their sections alone. -/
theorem lookupSec_applySegs_other (segs : List Seg) (k : String)
    (h : ∀ s ∈ segs, s.label ≠ k) :
    ∀ secs, lookupSec (applySegs segs secs) k = lookupSec secs k := by
  induction segs with
  | nil => intro secs; rfl
  | cons s rest ih =>
    intro secs
    unfold applySegs at ih ⊢
    simp only [List.foldl_cons]
    rw [ih (fun t ht => h t (List.mem_cons_of_mem s ht)),
      lookupSec_setSection_ne _ _ _ _ (fun e => h s (List.mem_cons_self s rest) e.symm)]

/-- `applySegs` never changes the key list. -/
theorem applySegs_keys (segs : List Seg) :
    ∀ secs, (applySegs segs secs).map Prod.fst = secs.map Prod.fst := by
  induction segs with
  | nil => intro secs; rfl
  | cons s rest ih =>
    intro secs
    unfold applySegs at ih ⊢
    simp only [List.foldl_cons]
    rw [ih, setSection_keys]

/-- On a duplicate-free segment list, every segment ends up under its own
label. -/
theorem lookupSec_applySegs (s0 : Seg) :
    ∀ (segs : List Seg), s0 ∈ segs → (segs.map Seg.label).Nodup →
      ∀ (secs : List (String × String)), s0.label ∈ secs.map Prod.fst →
      lookupSec (applySegs segs secs) s0.label = some (trimStr s0.body) := by
  intro segs
  induction segs with
  | nil => intro h; simp at h
  | cons s rest ih =>
    intro hmem hnodup secs hkey
    simp only [List.map_cons, List.nodup_cons] at hnodup
    unfold applySegs
    simp only [List.foldl_cons]
    rcases List.mem_cons.mp hmem with rfl | hmem2
    · have hnm : ∀ t ∈ rest, t.label ≠ s0.label := by
        intro t ht he
        exact hnodup.1 (he ▸ List.mem_map_of_mem Seg.label ht)
      rw [show rest.foldl (fun acc s => setSection acc s.label (trimStr s.body))
            (setSection secs s0.label (trimStr s0.body))
          = applySegs rest (setSection secs s0.label (trimStr s0.body)) from rfl]
      rw [lookupSec_applySegs_other rest _ hnm]
      exact lookupSec_setSection_eq _ _ _ hkey
    · rw [show rest.foldl (fun acc s => setSection acc s.label (trimStr s.body))
            (setSection secs s.label (trimStr s.body))
          = applySegs rest (setSection secs s.label (trimStr s.body)) from rfl]
      apply ih hmem2 hnodup.2
      rw [setSection_keys]
      exact hkey

/-- Rendering produces at least one character per segment. -/
theorem renderSegs_length (segs : List Seg) :
    segs.length ≤ (renderTail segs).length ∧ segs.length ≤ (renderSegs segs).length := by
  induction segs with
  | nil => exact ⟨Nat.le_refl 0, Nat.le_refl 0⟩
  | cons s rest ih =>
    have hseg : 1 ≤ (segChars s).length := by
      unfold segChars
      simp only [List.length_append, List.length_cons]
      omega
    constructor
    · show (s :: rest).length ≤ ('\n' :: (segChars s ++ renderTail rest)).length
      simp only [List.length_cons, List.length_append]
      have := ih.1
      omega
    · show (s :: rest).length ≤ (segChars s ++ renderTail rest).length
      simp only [List.length_cons, List.length_append]
      have := ih.1
      omega

/-- C4 (amended): for every completion text in which the five labels each
begin their own line — in any order — with a newline-free remainder of the
label line and a single-line body that is non-empty after trimming, the
Section Parser assigns to every label exactly its body text modulo
leading/trailing whitespace; in particular a non-empty value for each
label. -/
theorem parser_wellformed_scripts (segs : List Seg)
    (hperm : (segs.map Seg.label).Perm sectionLabels)
    (hgood : ∀ s ∈ segs, goodSeg s = true) :
    ∀ s ∈ segs,
      lookupSec (parseScript ⟨renderSegs segs⟩) s.label = some (trimStr s.body)
      ∧ trimStr s.body ≠ "" := by
  intro s0 hs0
  have hnodup : (segs.map Seg.label).Nodup := hperm.nodup_iff.mpr (by decide)
  have hlen : segs.length ≤ (renderSegs segs).length + 1 :=
    le_trans (renderSegs_length segs).2 (Nat.le_succ _)
  have hloop :=
    (parseLoop_segments segs hgood initSections ((renderSegs segs).length + 1) hlen).2
  have hlook : ∀ t ∈ segs,
      lookupSec (applySegs segs initSections) t.label = some (trimStr t.body) := by
    intro t ht
    apply lookupSec_applySegs t segs ht hnodup
    have hmem : t.label ∈ sectionLabels := hperm.mem_iff.mp (List.mem_map_of_mem Seg.label ht)
    have hini : initSections.map Prod.fst = sectionLabels := rfl
    rw [hini]
    exact hmem
  have htrim : ∀ t ∈ segs, trimStr t.body ≠ "" :=
    fun t ht => (goodSeg_parts (hgood t ht)).2.2.2.2
  have hhook : ∃ tH, tH ∈ segs ∧ tH.label = "HOOK" := by
    have hm : "HOOK" ∈ segs.map Seg.label := hperm.mem_iff.mpr (by decide)
    obtain ⟨tH, htH, hlab⟩ := List.mem_map.mp hm
    exact ⟨tH, htH, hlab⟩
  obtain ⟨tH, htHmem, htHlab⟩ := hhook
  have hfinal : parseScript ⟨renderSegs segs⟩ = applySegs segs initSections := by
    unfold parseScript
    dsimp only
    rw [hloop]
    have hjs : jsGet (applySegs segs initSections) "HOOK" = trimStr tH.body := by
      unfold jsGet
      rw [← htHlab, hlook tH htHmem]
      rfl
    have hcond : (jsGet (applySegs segs initSections) "HOOK" == "") = false := by
      rw [hjs]
      exact beq_eq_false_iff_ne.mpr (htrim tH htHmem)
    simp [hcond]
  rw [hfinal]
  exact ⟨hlook s0 hs0, htrim s0 hs0⟩

/-- A concrete well-formed script with the labels out of order. -/
def wfSegs : List Seg :=
  [⟨"CLOSE", " (48-60s)", "End with the call to action."⟩,
   ⟨"HOOK", " (0-8s)", "Start with the pain point."⟩,
   ⟨"TRUST", "", "Trusted by many teams."⟩,
   ⟨"PROBLEM", " (8-18s)", "Describe the challenge."⟩,
   ⟨"SOLUTION", "", "Introduce the product."⟩]

/-- C4 witness: the scrambled concrete script satisfies the hypotheses, and
the HOOK section comes back verbatim and non-empty. -/
theorem parser_wellformed_scripts_witness :
    (wfSegs.map Seg.label).Perm sectionLabels
    ∧ (∀ s ∈ wfSegs, goodSeg s = true)
    ∧ lookupSec (parseScript ⟨renderSegs wfSegs⟩) "HOOK"
        = some "Start with the pain point." := by
  have h1 : (wfSegs.map Seg.label).Perm sectionLabels := by decide
  have h2 : ∀ s ∈ wfSegs, goodSeg s = true := by decide
  refine ⟨h1, h2, ?_⟩
  have h3 := (parser_wellformed_scripts wfSegs h1 h2
    ⟨"HOOK", " (0-8s)", "Start with the pain point."⟩ (by decide)).1
  rw [show trimStr "Start with the pain point." = "Start with the pain point." from rfl] at h3
  exact h3

/-- C4 counterexample: in `"HOOK PROBLEM SOLUTION TRUST CLOSE\nbody"` every
label occurs, yet the parser leaves PROBLEM empty (the single body line is
captured by HOOK), refuting the claim for arbitrary label placements. -/
theorem parser_labels_present_empty_cx :
    (sectionLabels.all
      (fun lab => hasLabelSub lab "HOOK PROBLEM SOLUTION TRUST CLOSE\nbody".data)) = true
    ∧ lookupSec (parseScript "HOOK PROBLEM SOLUTION TRUST CLOSE\nbody") "PROBLEM" = some ""
    ∧ lookupSec (parseScript "HOOK PROBLEM SOLUTION TRUST CLOSE\nbody") "HOOK" = some "body" := by
  decide

end WpScriptGen
